import Mathlib

/-!
# Verification of the ControlNet annotator wrappers

Shallow embedding of `src/annotator/__init__.py`, `src/annotator/canny/__init__.py`
and `src/annotator/uniformer/__init__.py`.

Images are modelled by their observable attributes used in this code:
height, width, number of channels and whether the pixel dtype is byte
(uint8).  External library helpers from `rp` are modelled by their effect
on these attributes:
  * `rp.get_image_dimensions image`  returns the `(height, width)` pair;
  * `rp.cv_resize_image image dims`  returns an image with the given dims;
  * `rp.as_rgb_image image`          returns a 3-channel image;
  * `rp.as_byte_image image`         returns a byte (uint8) image.
Model calls (HED, MiDaS, the segmentor, cv2.Canny, `nms`) are kept as
function parameters, so theorems quantify over every possible model.
-/

/-- An image as observed by the annotator code: spatial dimensions plus the
format attributes (channel count, byte dtype) that the normalisation helpers
manipulate. -/
structure Image where
  height : Nat
  width : Nat
  channels : Nat
  dtypeByte : Bool
  deriving DecidableEq, Repr

/-- `rp.get_image_dimensions`: the `(height, width)` pair of an image. -/
def get_image_dimensions (image : Image) : Nat × Nat :=
  (image.height, image.width)

/-- `rp.cv_resize_image`: resizing changes the spatial dimensions to the
requested ones and keeps the format attributes. -/
def cv_resize_image (image : Image) (dims : Nat × Nat) : Image :=
  { image with height := dims.1, width := dims.2 }

/-- `rp.as_rgb_image`: conversion to an RGB (3-channel) image. -/
def as_rgb_image (image : Image) : Image :=
  { image with channels := 3 }

/-- `rp.as_byte_image`: conversion to a byte (uint8) image. -/
def as_byte_image (image : Image) : Image :=
  { image with dtypeByte := true }

/-- Devices are identified by their name strings (e.g. "cuda:0"). -/
abbrev Device := String

/-- `_is_divisible_by_patch_size(image, patch_size)` from
`src/annotator/__init__.py` lines 49-52:
`all(dim % patch_size == 0 for dim in rp.get_image_dimensions(image))`. -/
def _is_divisible_by_patch_size (image : Image) (patch_size : Nat) : Bool :=
  ((get_image_dimensions image).1 % patch_size == 0) &&
  ((get_image_dimensions image).2 % patch_size == 0)

/-- The `target_dims = tuple(x - x % patch_size for x in original_dims)`
computation from `src/annotator/__init__.py` line 66. -/
def target_dims (image : Image) (patch_size : Nat) : Nat × Nat :=
  ((get_image_dimensions image).1 - (get_image_dimensions image).1 % patch_size,
   (get_image_dimensions image).2 - (get_image_dimensions image).2 % patch_size)

/-- The image the wrapped function is invoked on by the
`_round_to_nearest_patch_size` wrapper: the input itself in the divisible
branch, the resized image otherwise (lines 62-68). -/
def wrapper_call_arg (image : Image) (patch_size : Nat) : Image :=
  if _is_divisible_by_patch_size image patch_size then image
  else cv_resize_image image (target_dims image patch_size)

/-- `_round_to_nearest_patch_size(patch_size)` from
`src/annotator/__init__.py` lines 54-72, applied to a wrapped function
`func : Image → Option Device → Image`.  If the dimensions are already
divisible the function runs directly; otherwise the image is resized to
`target_dims`, the function runs, and the result is resized back to the
original dimensions. -/
def _round_to_nearest_patch_size (patch_size : Nat)
    (func : Image → Option Device → Image)
    (image : Image) (device : Option Device) : Image :=
  let original_dims := get_image_dimensions image
  if _is_divisible_by_patch_size image patch_size then
    func image device
  else
    let resized_image := cv_resize_image image (target_dims image patch_size)
    let result := func resized_image device
    cv_resize_image result original_dims

/-- The wrapper applies `func` exactly once, to `wrapper_call_arg`, and
post-processes only in the non-divisible branch. -/
theorem round_wrapper_eq (patch_size : Nat)
    (func : Image → Option Device → Image) (image : Image)
    (device : Option Device) :
    _round_to_nearest_patch_size patch_size func image device =
      if _is_divisible_by_patch_size image patch_size then
        func (wrapper_call_arg image patch_size) device
      else
        cv_resize_image (func (wrapper_call_arg image patch_size) device)
          (get_image_dimensions image) := by
  unfold _round_to_nearest_patch_size wrapper_call_arg
  by_cases h : _is_divisible_by_patch_size image patch_size <;> simp [h]

/-- Helper: rounding down to a multiple (`x - x % n`) is divisible by `n`. -/
theorem floor_multiple_mod (x n : Nat) : (x - x % n) % n = 0 := by
  have h := Nat.div_add_mod x n
  have h2 : x - x % n = n * (x / n) := by omega
  rw [h2]
  exact Nat.mul_mod_right _ _

/-- Helper: the image the wrapper hands to the wrapped function always has
both dimensions divisible by the patch size (in the non-divisible branch its
dimensions are `x - x % patch_size`, which is `0 mod patch_size`). -/
theorem wrapper_call_arg_divisible (image : Image) (p : Nat) :
    (wrapper_call_arg image p).height % p = 0 ∧
    (wrapper_call_arg image p).width % p = 0 := by
  unfold wrapper_call_arg
  by_cases h : _is_divisible_by_patch_size image p
  · simp only [h, if_true]
    have := h
    unfold _is_divisible_by_patch_size get_image_dimensions at this
    simp only [Bool.and_eq_true, beq_iff_eq] at this
    exact this
  · simp only [h, if_false, Bool.false_eq_true]
    unfold cv_resize_image target_dims get_image_dimensions
    exact ⟨floor_multiple_mod _ _, floor_multiple_mod _ _⟩

/-- C1 counterexample: with the constant 1x1 wrapped function and a 32x32
input (dimensions already divisible by 32), the wrapper returns the wrapped
function's output unresized, so the value returned to the caller does NOT
have the original input image's dimensions. -/
theorem c1_returned_dims_counterexample :
    (_round_to_nearest_patch_size 32 (fun _ _ => Image.mk 1 1 3 true)
        (Image.mk 32 32 3 true) none).height ≠ (Image.mk 32 32 3 true).height := by
  decide

/-- C1 (amended): for every wrapped function that preserves image dimensions,
the `_round_to_nearest_patch_size 32` wrapper invokes it only on an image
whose height and width are divisible by 32 (it is applied exactly once, to
`wrapper_call_arg`), and the value returned to the caller has the original
input image's dimensions. -/
theorem c1_wrapper_divisible_and_restores_dims
    (func : Image → Option Device → Image)
    (hpres : ∀ i d, (func i d).height = i.height ∧ (func i d).width = i.width)
    (image : Image) (device : Option Device) :
    ((wrapper_call_arg image 32).height % 32 = 0 ∧
     (wrapper_call_arg image 32).width % 32 = 0) ∧
    (_round_to_nearest_patch_size 32 func image device =
      if _is_divisible_by_patch_size image 32 then
        func (wrapper_call_arg image 32) device
      else
        cv_resize_image (func (wrapper_call_arg image 32) device)
          (get_image_dimensions image)) ∧
    (_round_to_nearest_patch_size 32 func image device).height = image.height ∧
    (_round_to_nearest_patch_size 32 func image device).width = image.width := by
  refine ⟨wrapper_call_arg_divisible image 32, round_wrapper_eq 32 func image device, ?_, ?_⟩ <;>
  · unfold _round_to_nearest_patch_size
    by_cases h : _is_divisible_by_patch_size image 32 <;>
      simp [h, cv_resize_image, get_image_dimensions, (hpres _ device).1, (hpres _ device).2]

/-- C1 witness: the amended theorem applied to the identity wrapped function
and a concrete 33x47 image. -/
theorem c1_wrapper_divisible_and_restores_dims_witness :
    ((wrapper_call_arg (Image.mk 33 47 3 true) 32).height % 32 = 0 ∧
     (wrapper_call_arg (Image.mk 33 47 3 true) 32).width % 32 = 0) ∧
    (_round_to_nearest_patch_size 32 (fun i _ => i) (Image.mk 33 47 3 true) none =
      if _is_divisible_by_patch_size (Image.mk 33 47 3 true) 32 then
        (fun (i : Image) (_ : Option Device) => i) (wrapper_call_arg (Image.mk 33 47 3 true) 32) none
      else
        cv_resize_image
          ((fun (i : Image) (_ : Option Device) => i) (wrapper_call_arg (Image.mk 33 47 3 true) 32) none)
          (get_image_dimensions (Image.mk 33 47 3 true))) ∧
    (_round_to_nearest_patch_size 32 (fun i _ => i) (Image.mk 33 47 3 true) none).height =
      (Image.mk 33 47 3 true).height ∧
    (_round_to_nearest_patch_size 32 (fun i _ => i) (Image.mk 33 47 3 true) none).width =
      (Image.mk 33 47 3 true).width :=
  c1_wrapper_divisible_and_restores_dims (fun i _ => i) (fun _ _ => ⟨rfl, rfl⟩)
    (Image.mk 33 47 3 true) none

/-- C2 counterexample: a 63x63 image is not divisible by 32, and the wrapper
resizes its height to 32; but 64 is a multiple of 32 strictly closer to 63
than 32 is, so the image is NOT resized to the nearest multiple of 32. -/
theorem c2_nearest_multiple_counterexample :
    _is_divisible_by_patch_size (Image.mk 63 63 3 true) 32 = false ∧
    (wrapper_call_arg (Image.mk 63 63 3 true) 32).height = 32 ∧
    64 % 32 = 0 ∧ 64 - 63 < 63 - 32 := by
  decide

/-- C2 (amended): for every input image not already divisible by 32, the
wrapper resizes each dimension DOWN to `x - x % 32`, the largest multiple of
32 not exceeding it (not the nearest multiple), before invoking the wrapped
function. -/
theorem c2_resizes_to_floor_multiple (image : Image)
    (hnd : _is_divisible_by_patch_size image 32 = false) :
    (wrapper_call_arg image 32).height = image.height - image.height % 32 ∧
    (wrapper_call_arg image 32).width = image.width - image.width % 32 ∧
    (wrapper_call_arg image 32).height % 32 = 0 ∧
    (wrapper_call_arg image 32).width % 32 = 0 ∧
    (wrapper_call_arg image 32).height ≤ image.height ∧
    (wrapper_call_arg image 32).width ≤ image.width ∧
    image.height < (wrapper_call_arg image 32).height + 32 ∧
    image.width < (wrapper_call_arg image 32).width + 32 := by
  have harg : wrapper_call_arg image 32 =
      cv_resize_image image (target_dims image 32) := by
    unfold wrapper_call_arg
    simp [hnd]
  have hH : (wrapper_call_arg image 32).height = image.height - image.height % 32 := by
    rw [harg]; simp [cv_resize_image, target_dims, get_image_dimensions]
  have hW : (wrapper_call_arg image 32).width = image.width - image.width % 32 := by
    rw [harg]; simp [cv_resize_image, target_dims, get_image_dimensions]
  rw [hH, hW]
  have hh := Nat.mod_lt image.height (show 0 < 32 by decide)
  have hw := Nat.mod_lt image.width (show 0 < 32 by decide)
  have hh2 := Nat.mod_le image.height 32
  have hw2 := Nat.mod_le image.width 32
  refine ⟨rfl, rfl, floor_multiple_mod _ _, floor_multiple_mod _ _, ?_, ?_, ?_, ?_⟩ <;> omega

/-- C2 witness: the amended theorem applied to a concrete 63x45 image. -/
theorem c2_resizes_to_floor_multiple_witness :
    (wrapper_call_arg (Image.mk 63 45 3 true) 32).height =
      (Image.mk 63 45 3 true).height - (Image.mk 63 45 3 true).height % 32 ∧
    (wrapper_call_arg (Image.mk 63 45 3 true) 32).width =
      (Image.mk 63 45 3 true).width - (Image.mk 63 45 3 true).width % 32 ∧
    (wrapper_call_arg (Image.mk 63 45 3 true) 32).height % 32 = 0 ∧
    (wrapper_call_arg (Image.mk 63 45 3 true) 32).width % 32 = 0 ∧
    (wrapper_call_arg (Image.mk 63 45 3 true) 32).height ≤ (Image.mk 63 45 3 true).height ∧
    (wrapper_call_arg (Image.mk 63 45 3 true) 32).width ≤ (Image.mk 63 45 3 true).width ∧
    (Image.mk 63 45 3 true).height < (wrapper_call_arg (Image.mk 63 45 3 true) 32).height + 32 ∧
    (Image.mk 63 45 3 true).width < (wrapper_call_arg (Image.mk 63 45 3 true) 32).width + 32 :=
  c2_resizes_to_floor_multiple (Image.mk 63 45 3 true) (by decide)

/-- C10: for every input image with a dimension strictly below 32 that is not
divisible by 32, the wrapper takes the resize branch (the image is not
divisible), and for that axis `x - x % 32 = 0`, so the image handed to the
wrapped function has that dimension equal to zero. -/
theorem c10_small_dim_resized_to_zero (image : Image)
    (h : (image.height < 32 ∧ image.height % 32 ≠ 0) ∨
         (image.width < 32 ∧ image.width % 32 ≠ 0)) :
    _is_divisible_by_patch_size image 32 = false ∧
    ((image.height < 32 ∧ image.height % 32 ≠ 0) →
      (target_dims image 32).1 = 0 ∧ (wrapper_call_arg image 32).height = 0) ∧
    ((image.width < 32 ∧ image.width % 32 ≠ 0) →
      (target_dims image 32).2 = 0 ∧ (wrapper_call_arg image 32).width = 0) := by
  have hnd : _is_divisible_by_patch_size image 32 = false := by
    unfold _is_divisible_by_patch_size get_image_dimensions
    rcases h with ⟨_, h2⟩ | ⟨_, h2⟩ <;> simp [h2]
  have harg : wrapper_call_arg image 32 =
      cv_resize_image image (target_dims image 32) := by
    unfold wrapper_call_arg
    simp [hnd]
  refine ⟨hnd, fun ⟨hlt, _⟩ => ?_, fun ⟨hlt, _⟩ => ?_⟩ <;>
  · have hmod := Nat.mod_eq_of_lt hlt
    rw [harg]
    constructor <;> simp [cv_resize_image, target_dims, get_image_dimensions, hmod]

/-- C10 witness: the theorem applied to a concrete 20x64 image whose height
is below 32 and not divisible by 32. -/
theorem c10_small_dim_resized_to_zero_witness :
    _is_divisible_by_patch_size (Image.mk 20 64 3 true) 32 = false ∧
    (((Image.mk 20 64 3 true).height < 32 ∧ (Image.mk 20 64 3 true).height % 32 ≠ 0) →
      (target_dims (Image.mk 20 64 3 true) 32).1 = 0 ∧
      (wrapper_call_arg (Image.mk 20 64 3 true) 32).height = 0) ∧
    (((Image.mk 20 64 3 true).width < 32 ∧ (Image.mk 20 64 3 true).width % 32 ≠ 0) →
      (target_dims (Image.mk 20 64 3 true) 32).2 = 0 ∧
      (wrapper_call_arg (Image.mk 20 64 3 true) 32).width = 0) :=
  c10_small_dim_resized_to_zero (Image.mk 20 64 3 true)
    (Or.inl ⟨by decide, by decide⟩)

/-- Python-level errors the embedded code can raise. -/
inductive PyError where
  | assertionError
  | nameError
  deriving DecidableEq, Repr

/-- `run_hed(image, device=None, *, threshold=None, sigma=None)` from
`src/annotator/__init__.py` lines 74-84.  The HED detector call
`HEDdetector(device)(image)` and `nms` are parameters.  The function asserts
`(threshold is None) == (sigma is None)`, runs HED, and applies
`nms(output, threshold*255, sigma)` when both keyword arguments are given. -/
def run_hed (hed : Option Device → Image → Image)
    (nms : Image → ℚ → ℚ → Image)
    (image : Image) (device : Option Device)
    (threshold sigma : Option ℚ) : Except PyError Image :=
  if threshold.isNone == sigma.isNone then
    let output := hed device image
    match threshold, sigma with
    | some t, some s => .ok (nms output (t * 255) s)
    | _, _ => .ok output
  else .error .assertionError

/-- C5: `run_hed` raises AssertionError if and only if exactly one of
`threshold` and `sigma` is None; with both given it returns
`nms(hed_output, threshold*255, sigma)`; with neither it returns the HED
output unmodified. -/
theorem run_hed_assertion_and_nms
    (hed : Option Device → Image → Image) (nms : Image → ℚ → ℚ → Image)
    (image : Image) (device : Option Device) :
    (∀ threshold sigma : Option ℚ,
      run_hed hed nms image device threshold sigma = .error .assertionError ↔
        ¬ (threshold.isNone = sigma.isNone)) ∧
    (∀ t s : ℚ,
      run_hed hed nms image device (some t) (some s) =
        .ok (nms (hed device image) (t * 255) s)) ∧
    run_hed hed nms image device none none = .ok (hed device image) := by
  refine ⟨fun threshold sigma => ?_, fun t s => rfl, rfl⟩
  unfold run_hed
  rcases threshold with _ | t <;> rcases sigma with _ | s <;> simp

/-- `run_midas` from `src/annotator/__init__.py` lines 86-93: the decorated
function whose body is `depth, normals = MidasDetector(device)(image);
return depth`, wrapped by `_round_to_nearest_patch_size(32)`.  The
`MidasDetector(device)(image)` call is the parameter `midas`, returning the
`(depth, normals)` pair. -/
def run_midas (midas : Option Device → Image → Image × Image)
    (image : Image) (device : Option Device) : Image :=
  _round_to_nearest_patch_size 32
    (fun image device => (midas device image).1) image device

/-- `run_midas_normals` from `src/annotator/__init__.py` lines 95-102: same
decorated `MidasDetector(device)(image)` call, returning `normals`. -/
def run_midas_normals (midas : Option Device → Image → Image × Image)
    (image : Image) (device : Option Device) : Image :=
  _round_to_nearest_patch_size 32
    (fun image device => (midas device image).2) image device

/-- C6: `run_midas` and `run_midas_normals` invoke the same underlying
MidasDetector call (same device, same processed image, returning a
(depth, normals) pair); up to the wrapper's common final resize `post`,
`run_midas` returns the first (depth) component and `run_midas_normals`
returns the second (normals) component of that same call. -/
theorem run_midas_components
    (midas : Option Device → Image → Image × Image)
    (image : Image) (device : Option Device) :
    ∃ (processed : Image) (post : Image → Image),
      processed = wrapper_call_arg image 32 ∧
      run_midas midas image device = post (midas device processed).1 ∧
      run_midas_normals midas image device = post (midas device processed).2 := by
  refine ⟨wrapper_call_arg image 32,
    if _is_divisible_by_patch_size image 32 then id
    else fun r => cv_resize_image r (get_image_dimensions image), rfl, ?_, ?_⟩ <;>
    simp only [run_midas, run_midas_normals] <;>
    rw [round_wrapper_eq] <;>
    by_cases h : _is_divisible_by_patch_size image 32 <;> simp [h]

/-- A segmentation model.  `init_segmentor(config, checkpoint)` loads the
weights; torch's `model.to(device)` is modelled by its effect: the model
becomes bound to that device. -/
structure SegModel where
  boundDevice : Option Device
  deriving DecidableEq, Repr

/-- `init_segmentor(config_file, modelpath)`: a freshly loaded model, not yet
bound to a device. -/
def init_segmentor : SegModel := { boundDevice := none }

/-- Torch `model.to(device)`: bind the model to the device. -/
def SegModel.to (m : SegModel) (d : Device) : SegModel :=
  { m with boundDevice := some d }

/-- A `_UniformerDetector` instance from
`src/annotator/uniformer/__init__.py` lines 16-24: `self.device = device`
and `self.model = init_segmentor(config_file, modelpath).to(device)`.
The `uid` tags each constructor invocation so that equality of instances
means object identity. -/
structure UniformerInstance where
  device : Device
  model : SegModel
  uid : Nat
  deriving DecidableEq, Repr

/-- `_UniformerDetector.__init__(self, device)` (lines 17-24): stores the
device and binds the freshly loaded segmentor to it. -/
def mk_uniformer (d : Device) (uid : Nat) : UniformerInstance :=
  { device := d, model := SegModel.to init_segmentor d, uid := uid }

/-- Python-dict lookup of a cached instance by its constructor argument. -/
def cache_find : List (Device × UniformerInstance) → Device → Option UniformerInstance
  | [], _ => none
  | (k, v) :: rest, d => if k = d then some v else cache_find rest d

/-- State of the `rp.CachedInstances` memoization for `_UniformerDetector`:
the instance cache keyed by constructor argument, the log of constructor
invocations (each entry is one model construction / weight load), and a
counter giving fresh identities to new instances. -/
structure UniformerCache where
  cache : List (Device × UniformerInstance)
  constructed : List Device
  nextUid : Nat
  deriving DecidableEq, Repr

/-- The memoization state before any call. -/
def initUniformerCache : UniformerCache :=
  { cache := [], constructed := [], nextUid := 0 }

/-- Modelled from the spec: `rp.CachedInstances` (the base class of
`_UniformerDetector`, not under `src/`) implements "a caching/memoization
scheme that reuses a loaded model instance per (detector-type, device) pair
so repeated calls do not reload weights".  Calling the class with a device
returns the cached instance when one exists for that device; otherwise it
runs `__init__` (constructing the model, logged in `constructed`) and caches
the new instance. -/
def _UniformerDetector (s : UniformerCache) (d : Device) :
    UniformerInstance × UniformerCache :=
  match cache_find s.cache d with
  | some inst => (inst, s)
  | none =>
      let inst := mk_uniformer d s.nextUid
      (inst, { cache := (d, inst) :: s.cache,
               constructed := d :: s.constructed,
               nextUid := s.nextUid + 1 })

/-- The `if device is None: device = rp.select_torch_device()` resolution in
`UniformerDetector` (lines 33-37); `sel` is the device
`rp.select_torch_device()` would pick. -/
def resolve_device (sel : Device) (device : Option Device) : Device :=
  match device with
  | none => sel
  | some d => d

/-- `UniformerDetector(device=None)` from
`src/annotator/uniformer/__init__.py` lines 33-37: resolve the device, then
call the cached `_UniformerDetector` class. -/
def UniformerDetector (sel : Device) (s : UniformerCache)
    (device : Option Device) : UniformerInstance × UniformerCache :=
  _UniformerDetector s (resolve_device sel device)

/-- Run a sequence of `_UniformerDetector` calls, threading the cache. -/
def run_calls : UniformerCache → List Device → UniformerCache
  | s, [] => s
  | s, d :: ds => run_calls (_UniformerDetector s d).2 ds

/-- Invariant of the memoization state: every logged construction has a
cached instance, the construction log has no duplicates, and every cached
instance was built for its key (device stored, model bound to it). -/
def cache_inv (s : UniformerCache) : Prop :=
  (∀ d, d ∈ s.constructed → (cache_find s.cache d).isSome) ∧
  s.constructed.Nodup ∧
  (∀ p ∈ s.cache, p.2.device = p.1 ∧ p.2.model.boundDevice = some p.1)

/-- Helper: the initial state satisfies the invariant. -/
theorem cache_inv_init : cache_inv initUniformerCache := by
  refine ⟨?_, ?_, ?_⟩ <;> simp [initUniformerCache]

/-- Helper: one `_UniformerDetector` call preserves the invariant. -/
theorem cache_inv_step (s : UniformerCache) (d : Device) (h : cache_inv s) :
    cache_inv (_UniformerDetector s d).2 := by
  obtain ⟨h1, h2, h3⟩ := h
  unfold _UniformerDetector
  cases hfind : cache_find s.cache d with
  | some inst => simpa using ⟨h1, h2, h3⟩
  | none =>
      simp only []
      refine ⟨?_, ?_, ?_⟩
      · intro d' hd'
        simp only [List.mem_cons] at hd'
        rcases hd' with rfl | hd'
        · simp [cache_find]
        · have := h1 d' hd'
          by_cases hdd : d = d'
          · subst hdd; simp [cache_find]
          · simpa [cache_find, hdd] using this
      · refine List.nodup_cons.mpr ⟨?_, h2⟩
        intro hmem
        have := h1 d hmem
        rw [hfind] at this
        simp at this
      · intro p hp
        simp only [List.mem_cons] at hp
        rcases hp with rfl | hp
        · exact ⟨rfl, rfl⟩
        · exact h3 p hp

/-- Helper: any state reached from a state satisfying the invariant by a
sequence of calls satisfies the invariant. -/
theorem cache_inv_run (ds : List Device) (s : UniformerCache)
    (h : cache_inv s) : cache_inv (run_calls s ds) := by
  induction ds generalizing s with
  | nil => exact h
  | cons d ds ih => exact ih _ (cache_inv_step s d h)

/-- Helper: after a call with device `d`, the cache holds the returned
instance at key `d`. -/
theorem cache_find_after_call (s : UniformerCache) (d : Device) :
    cache_find (_UniformerDetector s d).2.cache d = some (_UniformerDetector s d).1 := by
  unfold _UniformerDetector
  cases hfind : cache_find s.cache d with
  | some inst => simpa using hfind
  | none => simp [cache_find]

/-- Helper: a successful cache lookup comes from an entry of the cache. -/
theorem cache_find_mem (l : List (Device × UniformerInstance)) (d : Device)
    (inst : UniformerInstance) (hfind : cache_find l d = some inst) :
    (d, inst) ∈ l := by
  induction l with
  | nil => simp [cache_find] at hfind
  | cons p rest ih =>
      obtain ⟨k, v⟩ := p
      by_cases hkd : k = d
      · subst hkd
        simp [cache_find] at hfind
        simp [hfind]
      · simp [cache_find, hkd] at hfind
        exact List.mem_cons_of_mem _ (ih hfind)

/-- Helper: the instance returned from a state satisfying the invariant has
its stored device and its model's bound device equal to the requested one. -/
theorem call_result_bound (s : UniformerCache) (d : Device) (h : cache_inv s) :
    (_UniformerDetector s d).1.device = d ∧
    (_UniformerDetector s d).1.model.boundDevice = some d := by
  obtain ⟨-, -, h3⟩ := h
  unfold _UniformerDetector
  cases hfind : cache_find s.cache d with
  | some inst =>
      have := h3 (d, inst) (cache_find_mem s.cache d inst hfind)
      simpa using this
  | none => simp [mk_uniformer, SegModel.to]

/-- Helper: unfolding equation for `_UniformerDetector`. -/
theorem _UniformerDetector_def (s : UniformerCache) (d : Device) :
    _UniformerDetector s d =
      match cache_find s.cache d with
      | some inst => (inst, s)
      | none =>
          (mk_uniformer d s.nextUid,
           { cache := (d, mk_uniformer d s.nextUid) :: s.cache,
             constructed := d :: s.constructed,
             nextUid := s.nextUid + 1 }) := rfl

/-- Helper: a second call with the same device returns the instance and
state of the first call unchanged. -/
theorem call_idempotent (s : UniformerCache) (d : Device) :
    _UniformerDetector (_UniformerDetector s d).2 d =
      ((_UniformerDetector s d).1, (_UniformerDetector s d).2) := by
  rw [_UniformerDetector_def ((_UniformerDetector s d).2) d, cache_find_after_call s d]

/-- C4: across any sequence of `UniformerDetector` calls starting from the
empty cache, the underlying model is constructed (weights loaded) at most
once per device, and a repeated call with the same device argument returns
the same cached instance with the cache unchanged. -/
theorem uniformer_model_constructed_once (ds : List Device) (d : Device) :
    List.count d (run_calls initUniformerCache ds).constructed ≤ 1 ∧
    (∀ (sel : Device) (s : UniformerCache) (dev : Option Device),
      (UniformerDetector sel (UniformerDetector sel s dev).2 dev).1 =
        (UniformerDetector sel s dev).1 ∧
      (UniformerDetector sel (UniformerDetector sel s dev).2 dev).2 =
        (UniformerDetector sel s dev).2) := by
  constructor
  · have h := cache_inv_run ds initUniformerCache cache_inv_init
    exact List.nodup_iff_count_le_one.mp h.2.1 d
  · intro sel s dev
    have h := call_idempotent s (resolve_device sel dev)
    unfold UniformerDetector
    exact ⟨congrArg Prod.fst h, congrArg Prod.snd h⟩

/-- C7: `UniformerDetector` resolves `device=None` to the automatically
selected torch device and passes an explicit device through; in any state
reachable from the empty cache, the instance it returns stores the resolved
device and its model is bound (via `.to(device)`) to that resolved
device. -/
theorem uniformer_device_resolution_and_binding (sel : Device)
    (ds : List Device) (dev : Option Device) :
    resolve_device sel none = sel ∧
    (∀ d : Device, resolve_device sel (some d) = d) ∧
    (UniformerDetector sel (run_calls initUniformerCache ds) dev).1.device =
      resolve_device sel dev ∧
    (UniformerDetector sel (run_calls initUniformerCache ds) dev).1.model.boundDevice =
      some (resolve_device sel dev) := by
  refine ⟨rfl, fun d => rfl, ?_, ?_⟩
  · exact (call_result_bound _ _ (cache_inv_run ds _ cache_inv_init)).1
  · exact (call_result_bound _ _ (cache_inv_run ds _ cache_inv_init)).2

/-- The top-level names bound in the module `src/annotator/canny/__init__.py`:
`import cv2` (line 1) and the class statement `CannyDetector` (line 4).  The
module never imports `rp`, and `rp` is not a Python builtin. -/
def canny_module_globals : List String := ["cv2", "CannyDetector"]

/-- `CannyDetector.__call__(self, img, low_threshold, high_threshold)` from
`src/annotator/canny/__init__.py` lines 5-7, with Python name resolution for
the free name `rp` made explicit: the body first evaluates
`rp.as_byte_image(rp.as_rgb_image(img))`, which raises `NameError` when `rp`
is not bound in the module globals; otherwise it returns
`cv2.Canny(img, low_threshold, high_threshold)` on the normalized image. -/
def CannyDetector_call (cv2Canny : Image → Nat → Nat → Image)
    (globals : List String) (img : Image) (low high : Nat) :
    Except PyError Image :=
  if globals.contains "rp" then
    .ok (cv2Canny (as_byte_image (as_rgb_image img)) low high)
  else .error .nameError

/-- `_UniformerDetector.__call__(self, img)` from
`src/annotator/uniformer/__init__.py` lines 26-30:
`img = rp.as_byte_image(rp.as_rgb_image(img))`, then
`result = inference_segmentor(self.model, img)`, then
`show_result_pyplot(self.model, img, result, get_palette('ade'), opacity=1)`.
The external `inference_segmentor`, `show_result_pyplot` and `get_palette`
are parameters (this module does import `rp`, so name resolution
succeeds). -/
def _UniformerDetector_call {α β : Type}
    (inference_segmentor : SegModel → Image → α)
    (show_result_pyplot : SegModel → Image → α → β → Nat → Image)
    (get_palette : String → β)
    (self : UniformerInstance) (img : Image) : Image :=
  let img2 := as_byte_image (as_rgb_image img)
  let result := inference_segmentor self.model img2
  show_result_pyplot self.model img2 result (get_palette "ade") 1

/-- C9: every invocation of `CannyDetector.__call__`, whatever the image,
thresholds and Canny model, raises `NameError`, because `rp` is not among
the names bound in `src/annotator/canny/__init__.py`. -/
theorem canny_call_raises_name_error (cv2Canny : Image → Nat → Nat → Image)
    (img : Image) (low high : Nat) :
    canny_module_globals.contains "rp" = false ∧
    CannyDetector_call cv2Canny canny_module_globals img low high =
      .error .nameError := by
  exact ⟨rfl, rfl⟩

/-- C8 counterexample: at a concrete image and Canny model,
`CannyDetector.__call__` does not normalize the input and run inference; it
raises `NameError` instead. -/
theorem c8_canny_counterexample :
    CannyDetector_call (fun i _ _ => i) canny_module_globals
      (Image.mk 5 5 1 false) 10 20 = .error .nameError ∧
    CannyDetector_call (fun i _ _ => i) canny_module_globals
      (Image.mk 5 5 1 false) 10 20 ≠
      .ok (as_byte_image (as_rgb_image (Image.mk 5 5 1 false))) := by
  refine ⟨rfl, ?_⟩
  intro h
  simp [CannyDetector_call, canny_module_globals] at h

/-- C8 (amended): `_UniformerDetector.__call__` converts its input to an RGB
image and then to a byte image and invokes the segmentor on exactly that
normalized image; `CannyDetector.__call__` contains the same normalization
expression, but because `rp` is unbound in its module every invocation
raises `NameError` and no inference runs. -/
theorem uniformer_normalizes_canny_name_fails {α β : Type}
    (inference_segmentor : SegModel → Image → α)
    (show_result_pyplot : SegModel → Image → α → β → Nat → Image)
    (get_palette : String → β)
    (self : UniformerInstance) (img : Image) :
    (as_byte_image (as_rgb_image img)).channels = 3 ∧
    (as_byte_image (as_rgb_image img)).dtypeByte = true ∧
    _UniformerDetector_call inference_segmentor show_result_pyplot get_palette
        self img =
      show_result_pyplot self.model (as_byte_image (as_rgb_image img))
        (inference_segmentor self.model (as_byte_image (as_rgb_image img)))
        (get_palette "ade") 1 ∧
    (∀ (cv2Canny : Image → Nat → Nat → Image) (img2 : Image) (low high : Nat),
      CannyDetector_call cv2Canny canny_module_globals img2 low high =
        .error .nameError) := by
  exact ⟨rfl, rfl, rfl, fun _ _ _ _ => rfl⟩

/-- An entry of a Python `def` parameter list, as far as the bare-`*`
well-formedness rule is concerned. -/
inductive PyParam where
  | pos : String → PyParam
  | posDefault : String → PyParam
  | bareStar : PyParam
  deriving DecidableEq, Repr

/-- Whether a parameter-list entry is a named parameter. -/
def is_named_param : PyParam → Bool
  | .pos _ => true
  | .posDefault _ => true
  | .bareStar => false

/-- Modelled from the Python grammar rule the claim cites: a parameter list
is well formed only if every bare `*` is followed by at least one named
(keyword-only) parameter (CPython rejects it otherwise with
`SyntaxError: named arguments must follow bare *`). -/
def params_valid : List PyParam → Bool
  | [] => true
  | .bareStar :: rest => rest.any is_named_param && params_valid rest
  | _ :: rest => params_valid rest

/-- The parameter list of `def run_uniformer(image, device=None, *):` at
`src/annotator/__init__.py` line 111. -/
def run_uniformer_param_list : List PyParam :=
  [PyParam.pos "image", PyParam.posDefault "device", PyParam.bareStar]

/-- Line 154 of `src/annotator/__init__.py`, verbatim. -/
def annotator_line_154 : String :=
  "        output = rp.tiled_images(images))"

/-- Scan a character list, tracking the open-parenthesis depth; `true` iff
the depth never drops below zero and ends at zero. -/
def paren_scan : Int → List Char → Bool
  | depth, [] => depth == 0
  | depth, c :: cs =>
    if c = '(' then paren_scan (depth + 1) cs
    else if c = ')' then decide (0 < depth) && paren_scan (depth - 1) cs
    else paren_scan depth cs

/-- Whether the parentheses of a line are balanced. -/
def parens_balanced (s : String) : Bool := paren_scan 0 s.data

/-- C3: the module `src/annotator/__init__.py` is not valid Python: the
parameter list of `run_uniformer` (line 111) ends in a bare `*` with no
following named parameter, and line 154 has an unmatched closing
parenthesis (so the module cannot be imported and none of its `run_*`
wrappers is callable). -/
theorem annotator_module_syntax_defects :
    params_valid run_uniformer_param_list = false ∧
    parens_balanced annotator_line_154 = false := by
  exact ⟨rfl, rfl⟩
